import Mathlib

/-!
Shallow embedding of the `mobx-loro` bridge (pool + observable wrappers)
and proofs of its specified properties.

Source of truth:
- `src/packages/mobx-loro/src/pool.ts`   (ObservableLoroPool)
- `src/packages/mobx-loro/src/map.ts`    (ObservableLoroMap)
- `src/packages/mobx-loro/src/text.ts`   (ObservableLoroText)
- `src/packages/mobx-loro/src/tree.ts`   (ObservableLoroTree / ObservableLoroTreeNode)
- `src/packages/mobx-loro/src/list.ts`   (ObservableLoroList)

The Loro CRDT engine and the MobX atom are external collaborators; they are
modelled at their boundary exactly as the wrapper code uses them (subscribe
with an event carrying an origin tag `by`, atom lifecycle hooks fired on the
0-to-1 and 1-to-0 observer transitions, container CRUD that either succeeds
or throws).  Wrapper objects are identified by allocation-order references
(`WrapperRef`), which stands for JavaScript object identity.
-/

/-- Loro `ContainerID`: an opaque document-unique string. -/
abbrev ContainerID := String

/-- Reference to a wrapper object (JS object identity), by allocation order. -/
abbrev WrapperRef := Nat

/-- Association-list lookup keyed by decidable equality (models `Map.get`). -/
def lookupA {α β : Type} [DecidableEq α] (k : α) : List (α × β) → Option β
  | [] => none
  | (k', v) :: rest => if k' = k then some v else lookupA k rest

/-- Association-list membership test (models `Map.has`). -/
def containsA {α β : Type} [DecidableEq α] (k : α) (l : List (α × β)) : Bool :=
  (lookupA k l).isSome

/-- Association-list key removal (models `Map.delete`). -/
def eraseA {α β : Type} [DecidableEq α] (k : α) : List (α × β) → List (α × β)
  | [] => []
  | (k', v) :: rest => if k' = k then eraseA k rest else (k', v) :: eraseA k rest

/-- A runtime value handed to `pool.get`.  The five constructors carrying a
`ContainerID` that have wrappers mirror the five `instanceof` checks in
`pool.ts`; `counter` stands for a Loro container of a kind with no wrapper
class (e.g. `LoroCounter`, part of the `Container` union in `loro-crdt`);
`plain` is any non-container JavaScript value. -/
inductive LoroValue where
  | map (id : ContainerID)
  | tree (id : ContainerID)
  | movableList (id : ContainerID)
  | list (id : ContainerID)
  | text (id : ContainerID)
  | counter (id : ContainerID)
  | plain (n : Int)
deriving DecidableEq, Repr

/-- True exactly for the five container kinds that `pool.get` dispatches on. -/
def LoroValue.isKnownContainerKind : LoroValue → Bool
  | .map _ | .tree _ | .movableList _ | .list _ | .text _ => true
  | .counter _ | .plain _ => false

/-- Outcome of `pool.get(value)`: a wrapper object, the value passed through
unchanged, or a thrown error.  (`thrown` exists so that claims about error
behaviour can be stated; the embedded `get` is then shown never to produce
it, mirroring the absence of any `throw` in `ObservableLoroPool.get`.) -/
inductive GetResult where
  | wrapper (w : WrapperRef)
  | passthrough (v : LoroValue)
  | thrown (msg : String)
deriving DecidableEq, Repr

/-- Whether a `GetResult` is a thrown error. -/
def GetResult.isThrown : GetResult → Bool
  | .thrown _ => true
  | _ => false

/-- State of one `ObservableLoroPool` together with the wrapper objects it has
allocated.  The five registries and `unsub` are the pool's own fields
(`maps`, `trees`, `lists`, `movableLists`, `texts`, `unsubscribe` in
`pool.ts`).  `wrapperSubs` is the heap of wrapper objects ever created by
this pool: for each `WrapperRef`, the current value of that wrapper's own
`unsubscribe` field (map.ts / list.ts / text.ts / tree.ts all hold one);
no pool method in the source ever touches those fields.  `docUnsubCalls`
counts invocations of the document-level unsubscribe function, and
`nextWrapper` is the allocator for fresh wrapper object identities. -/
structure PoolState where
  maps : List (ContainerID × WrapperRef)
  trees : List (ContainerID × WrapperRef)
  lists : List (ContainerID × WrapperRef)
  movableLists : List (ContainerID × WrapperRef)
  texts : List (ContainerID × WrapperRef)
  unsub : Option Unit
  docUnsubCalls : Nat
  wrapperSubs : List (WrapperRef × Option Unit)
  nextWrapper : Nat
deriving DecidableEq, Repr

/-- A freshly constructed pool: empty registries, document subscription
installed by `setupEventHandling`, no wrappers allocated yet. -/
def emptyPool : PoolState :=
  { maps := [], trees := [], lists := [], movableLists := [], texts := []
    unsub := some (), docUnsubCalls := 0, wrapperSubs := [], nextWrapper := 0 }

/-- `ObservableLoroPool.getMap`: return the cached wrapper for this id or
create one (a fresh wrapper starts with a `null` subscription handle). -/
def ObservableLoroPool.getMap (p : PoolState) (id : ContainerID) :
    WrapperRef × PoolState :=
  match lookupA id p.maps with
  | some existing => (existing, p)
  | none =>
      let w := p.nextWrapper
      (w, { p with maps := (id, w) :: p.maps,
                   wrapperSubs := (w, none) :: p.wrapperSubs,
                   nextWrapper := p.nextWrapper + 1 })

/-- `ObservableLoroPool.getTree`. -/
def ObservableLoroPool.getTree (p : PoolState) (id : ContainerID) :
    WrapperRef × PoolState :=
  match lookupA id p.trees with
  | some existing => (existing, p)
  | none =>
      let w := p.nextWrapper
      (w, { p with trees := (id, w) :: p.trees,
                   wrapperSubs := (w, none) :: p.wrapperSubs,
                   nextWrapper := p.nextWrapper + 1 })

/-- `ObservableLoroPool.getList`. -/
def ObservableLoroPool.getList (p : PoolState) (id : ContainerID) :
    WrapperRef × PoolState :=
  match lookupA id p.lists with
  | some existing => (existing, p)
  | none =>
      let w := p.nextWrapper
      (w, { p with lists := (id, w) :: p.lists,
                   wrapperSubs := (w, none) :: p.wrapperSubs,
                   nextWrapper := p.nextWrapper + 1 })

/-- `ObservableLoroPool.getMovableList`. -/
def ObservableLoroPool.getMovableList (p : PoolState) (id : ContainerID) :
    WrapperRef × PoolState :=
  match lookupA id p.movableLists with
  | some existing => (existing, p)
  | none =>
      let w := p.nextWrapper
      (w, { p with movableLists := (id, w) :: p.movableLists,
                   wrapperSubs := (w, none) :: p.wrapperSubs,
                   nextWrapper := p.nextWrapper + 1 })

/-- `ObservableLoroPool.getText`. -/
def ObservableLoroPool.getText (p : PoolState) (id : ContainerID) :
    WrapperRef × PoolState :=
  match lookupA id p.texts with
  | some existing => (existing, p)
  | none =>
      let w := p.nextWrapper
      (w, { p with texts := (id, w) :: p.texts,
                   wrapperSubs := (w, none) :: p.wrapperSubs,
                   nextWrapper := p.nextWrapper + 1 })

/-- `ObservableLoroPool.get`: dispatch over the `instanceof` chain of
`pool.ts` (LoroMap, LoroTree, LoroMovableList, LoroList, LoroText, in that
order); any other value — container of an unknown kind included — falls
through to `return value`. -/
def ObservableLoroPool.get (p : PoolState) (v : LoroValue) :
    GetResult × PoolState :=
  match v with
  | .map id =>
      let r := ObservableLoroPool.getMap p id
      (GetResult.wrapper r.1, r.2)
  | .tree id =>
      let r := ObservableLoroPool.getTree p id
      (GetResult.wrapper r.1, r.2)
  | .movableList id =>
      let r := ObservableLoroPool.getMovableList p id
      (GetResult.wrapper r.1, r.2)
  | .list id =>
      let r := ObservableLoroPool.getList p id
      (GetResult.wrapper r.1, r.2)
  | .text id =>
      let r := ObservableLoroPool.getText p id
      (GetResult.wrapper r.1, r.2)
  | v => (GetResult.passthrough v, p)

/-- The five container kinds of `clearInstance` / `has`. -/
inductive ContainerKind where
  | map | tree | list | movable | text
deriving DecidableEq, Repr

/-- `ObservableLoroPool.clearInstance`. -/
def ObservableLoroPool.clearInstance (p : PoolState) (kind : ContainerKind)
    (id : ContainerID) : PoolState :=
  match kind with
  | .map => { p with maps := eraseA id p.maps }
  | .tree => { p with trees := eraseA id p.trees }
  | .list => { p with lists := eraseA id p.lists }
  | .movable => { p with movableLists := eraseA id p.movableLists }
  | .text => { p with texts := eraseA id p.texts }

/-- `ObservableLoroPool.clearAll`: empties every registry.  It does not touch
the wrapper objects themselves (no wrapper field is written). -/
def ObservableLoroPool.clearAll (p : PoolState) : PoolState :=
  { p with maps := [], trees := [], lists := [], movableLists := [],
           texts := [] }

/-- `ObservableLoroPool.size`: total number of cached instances. -/
def ObservableLoroPool.size (p : PoolState) : Nat :=
  p.maps.length + p.trees.length + p.lists.length + p.movableLists.length +
    p.texts.length

/-- `ObservableLoroPool.has`. -/
def ObservableLoroPool.has (p : PoolState) (kind : ContainerKind)
    (id : ContainerID) : Bool :=
  match kind with
  | .map => containsA id p.maps
  | .tree => containsA id p.trees
  | .list => containsA id p.lists
  | .movable => containsA id p.movableLists
  | .text => containsA id p.texts

/-- `ObservableLoroPool.dispose`: if the document-level unsubscribe function
is present, call it and null it out; then `clearAll()`. -/
def ObservableLoroPool.dispose (p : PoolState) : PoolState :=
  ObservableLoroPool.clearAll
    (match p.unsub with
     | some _ => { p with unsub := none, docUnsubCalls := p.docUnsubCalls + 1 }
     | none => p)

/-- The `onBecomeObserved` hook body shared by every wrapper constructor
(`map.ts`, `list.ts`, `text.ts`, `tree.ts`): `if (!this.unsubscribe)
this.unsubscribe = container.subscribe(...)`, here applied to the wrapper
heap entry `w` of a pool state. -/
def wrapperOnBecomeObserved (p : PoolState) (w : WrapperRef) : PoolState :=
  match lookupA w p.wrapperSubs with
  | some none =>
      { p with wrapperSubs :=
          p.wrapperSubs.map (fun q => if q.1 = w then (w, some ()) else q) }
  | _ => p

/-- One `reportChanged()` call on a change-tracking cell (atom). -/
inductive CellAction where
  | reportChanged
deriving DecidableEq, Repr

/-- The origin tag (`event.by`) of a `LoroEventBatch`: caused locally, merged
in by import, or produced by a checkout. -/
inductive LoroEventBy where
  | local
  | imported
  | checkout
deriving DecidableEq, Repr

/-- The slice of a `LoroEventBatch` the wrapper callbacks inspect: only the
origin tag `by`. -/
structure LoroEventBatch where
  eventBy : LoroEventBy
deriving DecidableEq, Repr

/-- `ObservableLoroMap.handleMapChange`: `runInAction(() =>
this.atom.reportChanged())` — exactly one `reportChanged` on the map's cell.
The bodies of `handleListChange` and `handleTextChange` are identical. -/
def ObservableLoroMap.handleMapChange : List CellAction :=
  [CellAction.reportChanged]

/-- The callback passed to `this.map.subscribe(...)` in the
`ObservableLoroMap` constructor: `if (event.by !== "local")
this.handleMapChange()`.  The list/movable-list/text wrappers install the
same callback body.  Returns the cell actions the callback performs. -/
def ObservableLoroMap.subscribeCallback (event : LoroEventBatch) :
    List CellAction :=
  if event.eventBy ≠ LoroEventBy.local then ObservableLoroMap.handleMapChange
  else []

/-- State of one `ObservableLoroMap` wrapper: the underlying `LoroMap`
contents (an association of keys to values), the wrapper's `unsubscribe`
handle, and the number of `reportChanged` calls issued on its atom so far. -/
structure ObservableLoroMapState where
  entries : List (String × LoroValue)
  sub : Option Unit
  changed : Nat
deriving DecidableEq, Repr

/-- Boundary model of `LoroMap.set`: overwrite the value of an existing key,
or add the entry for a new key. -/
def loroMapSet : List (String × LoroValue) → String → LoroValue →
    List (String × LoroValue)
  | [], k, v => [(k, v)]
  | (k', v') :: rest, k, v =>
      if k' = k then (k, v) :: rest else (k', v') :: loroMapSet rest k v

/-- Boundary model of `LoroMap.get` (a missing key yields `undefined`,
modelled as `none`). -/
def loroMapGet (entries : List (String × LoroValue)) (k : String) :
    Option LoroValue :=
  lookupA k entries

/-- Boundary model of `LoroMap.size`: the number of entries. -/
def loroMapSize (entries : List (String × LoroValue)) : Nat :=
  entries.length

/-- `ObservableLoroMap.set`: delegate to `this.map.set(key, value)`, then
`this.handleMapChange()` (one synchronous `reportChanged`).  The
subscription handle is untouched. -/
def ObservableLoroMap.set (st : ObservableLoroMapState) (k : String)
    (v : LoroValue) : ObservableLoroMapState :=
  { st with entries := loroMapSet st.entries k v, changed := st.changed + 1 }

/-- `ObservableLoroMap.get`: `reportObserved` (not tracked here), delegate to
`this.map.get(key)`, and resolve the result through `this.pool.get(value)`.
A missing key gives `undefined`, which the pool passes through. -/
def ObservableLoroMap.get (p : PoolState) (st : ObservableLoroMapState)
    (k : String) : Option GetResult × PoolState :=
  match loroMapGet st.entries k with
  | none => (none, p)
  | some v =>
      let r := ObservableLoroPool.get p v
      (some r.1, r.2)

/-- `ObservableLoroMap.size`: delegate to `this.map.size`. -/
def ObservableLoroMap.size (st : ObservableLoroMapState) : Nat :=
  loroMapSize st.entries

/-- State of one wrapper's change-tracking cell as MobX sees it: the number
of live tracked computations currently observing it, and the wrapper's
`unsubscribe` field. -/
structure AtomState where
  observers : Nat
  unsubscribe : Option Unit
deriving DecidableEq, Repr

/-- Initial state: unobserved, no subscription (`private unsubscribe ... =
null` in every wrapper constructor). -/
def atomInit : AtomState := { observers := 0, unsubscribe := none }

/-- The first `createAtom` lifecycle callback (`map.ts` lines 32-42, same in
the other wrappers): `if (!this.unsubscribe) this.unsubscribe =
container.subscribe(...)`. -/
def onBecomeObservedHook (s : AtomState) : AtomState :=
  match s.unsubscribe with
  | none => { s with unsubscribe := some () }
  | some _ => s

/-- The second `createAtom` lifecycle callback: `if (this.unsubscribe) {
this.unsubscribe(); this.unsubscribe = null; }`. -/
def onBecomeUnobservedHook (s : AtomState) : AtomState :=
  match s.unsubscribe with
  | some _ => { s with unsubscribe := none }
  | none => s

/-- An observer attaching to or detaching from the cell. -/
inductive ObserverEvent where
  | attach
  | detach
deriving DecidableEq, Repr

/-- MobX boundary contract for `createAtom`: the first lifecycle hook fires
exactly on the 0-to-1 observer transition, the second exactly on the 1-to-0
transition; a detach with no observers is impossible in MobX and is a
no-op here. -/
def atomStep (s : AtomState) (e : ObserverEvent) : AtomState :=
  match e with
  | .attach =>
      let s' := { s with observers := s.observers + 1 }
      if s.observers = 0 then onBecomeObservedHook s' else s'
  | .detach =>
      match s.observers with
      | 0 => s
      | n + 1 =>
          let s' := { s with observers := n }
          if n = 0 then onBecomeUnobservedHook s' else s'

/-- Run a history of observer attach/detach events from the initial state. -/
def atomRun (evs : List ObserverEvent) : AtomState :=
  evs.foldl atomStep atomInit

/-- A Loro tree node id. -/
abbrev TreeID := Nat

/-- One node of the underlying Loro tree: its id, parent (none for roots),
and deletion flag (deleted nodes stay in the tree, queryable). -/
structure LoroTreeNodeModel where
  nid : TreeID
  parent : Option TreeID
  deleted : Bool
deriving DecidableEq, Repr

/-- Boundary model of the underlying `LoroTree`: its nodes and an id
allocator.  Sibling order / fractional indices are not modelled (no claim
depends on them); structural operations ignore their `index` argument. -/
structure LoroTreeModel where
  nodes : List LoroTreeNodeModel
  nextId : Nat
deriving DecidableEq, Repr

/-- Whether a node id is present in a node list (deleted nodes included). -/
def nodeExistsL (l : List LoroTreeNodeModel) (x : TreeID) : Bool :=
  l.any (fun n => n.nid = x)

/-- Whether a node id is present in the tree (deleted nodes included). -/
def nodeExists (t : LoroTreeModel) (x : TreeID) : Bool :=
  nodeExistsL t.nodes x

/-- The parent of a node, if the node exists. -/
def parentOf (t : LoroTreeModel) (x : TreeID) : Option TreeID :=
  match t.nodes.find? (fun n => n.nid = x) with
  | some n => n.parent
  | none => none

/-- Fuelled ancestor-or-self test used for the engine's cycle prevention. -/
def isAncestorFuel : Nat → LoroTreeModel → TreeID → TreeID → Bool
  | 0, _, _, _ => false
  | fuel + 1, t, anc, x =>
      anc = x ||
        (match parentOf t x with
         | some p => isAncestorFuel fuel t anc p
         | none => false)

/-- Ancestor-or-self test with enough fuel to traverse any chain. -/
def isAncestorOrSelf (t : LoroTreeModel) (anc x : TreeID) : Bool :=
  isAncestorFuel (t.nodes.length + 1) t anc x

/-- Boundary model of `LoroTree.createNode(parent?)`: fails if the requested
parent does not exist, otherwise adds a fresh node under it. -/
def loroTreeCreateNode (t : LoroTreeModel) (parent : Option TreeID) :
    Except String (TreeID × LoroTreeModel) :=
  match parent with
  | some p =>
      if nodeExists t p then
        .ok (t.nextId,
          { nodes := ⟨t.nextId, parent, false⟩ :: t.nodes,
            nextId := t.nextId + 1 })
      else .error "parent not found"
  | none =>
      .ok (t.nextId,
        { nodes := ⟨t.nextId, none, false⟩ :: t.nodes,
          nextId := t.nextId + 1 })

/-- Boundary model of `LoroTree.move(target, parent?)`: fails on a missing
target or parent or when the move would create a cycle; otherwise reparents
the target. -/
def loroTreeMove (t : LoroTreeModel) (target : TreeID)
    (parent : Option TreeID) : Except String LoroTreeModel :=
  if nodeExists t target &&
     (match parent with
      | none => true
      | some p => nodeExists t p && !isAncestorOrSelf t target p) then
    .ok { t with nodes :=
            t.nodes.map (fun n =>
              if n.nid = target then { n with parent := parent } else n) }
  else .error "invalid move"

/-- Boundary model of `LoroTree.delete(target)`: fails on a missing target;
otherwise marks the target's whole subtree deleted (nodes remain in the
tree and stay queryable). -/
def loroTreeDelete (t : LoroTreeModel) (target : TreeID) :
    Except String LoroTreeModel :=
  if nodeExists t target then
    .ok { t with nodes :=
            t.nodes.map (fun n =>
              if isAncestorOrSelf t target n.nid then
                { n with deleted := true }
              else n) }
  else .error "target not found"

/-- A change-tracking cell owned by the tree wrapper: its own atom, or the
atom of one cached node wrapper (identified by the node wrapper's object
reference). -/
inductive TreeCell where
  | treeAtom
  | nodeAtom (w : WrapperRef)
deriving DecidableEq, Repr

/-- State of one `ObservableLoroTree` wrapper: the underlying tree, the
`nodeWrappers` sub-cache (node id to node wrapper object), the allocator
for node wrapper object identities, and the ordered log of `reportChanged`
calls issued on the tree-owned cells. -/
structure ObservableLoroTreeState where
  tree : LoroTreeModel
  nodeWrappers : List (TreeID × WrapperRef)
  nextNodeWrapper : Nat
  invalidated : List TreeCell
deriving DecidableEq, Repr

/-- A tree wrapper freshly created over an empty tree. -/
def emptyTreeState : ObservableLoroTreeState :=
  { tree := { nodes := [], nextId := 0 }, nodeWrappers := [],
    nextNodeWrapper := 0, invalidated := [] }

/-- `ObservableLoroTree.wrapNode`: reuse the cached node wrapper for this
node id, or create and cache a fresh one. -/
def ObservableLoroTree.wrapNode (s : ObservableLoroTreeState) (x : TreeID) :
    WrapperRef × ObservableLoroTreeState :=
  match lookupA x s.nodeWrappers with
  | some w => (w, s)
  | none =>
      let w := s.nextNodeWrapper
      (w, { s with nodeWrappers := (x, w) :: s.nodeWrappers,
                   nextNodeWrapper := s.nextNodeWrapper + 1 })

/-- The cells `handleChange` reports changed: the tree atom, then the atom of
every currently cached node wrapper. -/
def handleChangeCells (cache : List (TreeID × WrapperRef)) : List TreeCell :=
  TreeCell.treeAtom :: cache.map (fun q => TreeCell.nodeAtom q.2)

/-- `ObservableLoroTree.handleChange`: inside one action, `reportChanged` on
the tree atom and then on every cached node wrapper's atom. -/
def ObservableLoroTree.handleChange (s : ObservableLoroTreeState) :
    ObservableLoroTreeState :=
  { s with invalidated := s.invalidated ++ handleChangeCells s.nodeWrappers }

/-- `ObservableLoroTree.handleRemoteChange`: `reportChanged` on the tree atom,
then for every cached node wrapper `reportChanged` on its atom — the source
looks the fresh node up by id but calls `wrapper.reportChanged()` in both
the found and the not-found branch, so the reported cells are the same as
`handleChange`'s.  The sub-cache is not modified. -/
def ObservableLoroTree.handleRemoteChange (s : ObservableLoroTreeState) :
    ObservableLoroTreeState :=
  { s with invalidated := s.invalidated ++ handleChangeCells s.nodeWrappers }

/-- The structural mutations of the tree wrapper and its node wrappers:
`tree.createNode` / `node.createNode`, `tree.move` / `node.move`,
`node.moveBefore`, `node.moveAfter`, `tree.delete`.  `index` arguments are
carried but have no effect in the boundary tree model. -/
inductive TreeStructOp where
  | createNode (parent : Option TreeID) (index : Option Nat)
  | move (target : TreeID) (parent : Option TreeID) (index : Option Nat)
  | moveBefore (target beforeNode : TreeID)
  | moveAfter (target afterNode : TreeID)
  | delete (target : TreeID)
deriving DecidableEq, Repr

/-- Boundary model of `LoroTreeNode.moveBefore` / `moveAfter`: a move to the
sibling position of `other`, i.e. a reparent to `other`'s parent; fails if
`other` is missing or the reparent is invalid. -/
def loroTreeMoveBeside (t : LoroTreeModel) (target other : TreeID) :
    Except String LoroTreeModel :=
  if nodeExists t other then loroTreeMove t target (parentOf t other)
  else .error "sibling not found"

/-- One structural mutation through the wrapper layer: delegate to the
underlying tree first; on success run `handleChange()` (and, for
`createNode`, wrap the new node afterwards — `createNode` in the source
calls `handleChange` before `wrapNode`); on failure the exception
propagates and the wrapper state is untouched. -/
def ObservableLoroTree.applyStructOp (s : ObservableLoroTreeState)
    (op : TreeStructOp) : Except String ObservableLoroTreeState :=
  match op with
  | .createNode parent _ =>
      match loroTreeCreateNode s.tree parent with
      | .ok (nid, t') =>
          .ok (ObservableLoroTree.wrapNode
                 (ObservableLoroTree.handleChange { s with tree := t' })
                 nid).2
      | .error e => .error e
  | .move target parent _ =>
      match loroTreeMove s.tree target parent with
      | .ok t' => .ok (ObservableLoroTree.handleChange { s with tree := t' })
      | .error e => .error e
  | .moveBefore target beforeNode =>
      match loroTreeMoveBeside s.tree target beforeNode with
      | .ok t' => .ok (ObservableLoroTree.handleChange { s with tree := t' })
      | .error e => .error e
  | .moveAfter target afterNode =>
      match loroTreeMoveBeside s.tree target afterNode with
      | .ok t' => .ok (ObservableLoroTree.handleChange { s with tree := t' })
      | .error e => .error e
  | .delete target =>
      match loroTreeDelete s.tree target with
      | .ok t' => .ok (ObservableLoroTree.handleChange { s with tree := t' })
      | .error e => .error e

/-- One edit carried by an imported remote update, as it lands on the
underlying tree: adding a node, reparenting a node, or marking a node
deleted.  (Loro imports never erase a node from the tree.) -/
inductive RemoteTreeEdit where
  | addNode (x : TreeID) (parent : Option TreeID)
  | reparent (x : TreeID) (parent : Option TreeID)
  | markDeleted (x : TreeID)
deriving DecidableEq, Repr

/-- Apply one remote edit to the underlying tree. -/
def applyRemoteTreeEdit (t : LoroTreeModel) (e : RemoteTreeEdit) :
    LoroTreeModel :=
  match e with
  | .addNode x parent =>
      if nodeExists t x then t
      else { t with nodes := ⟨x, parent, false⟩ :: t.nodes }
  | .reparent x parent =>
      { t with nodes :=
          t.nodes.map (fun n =>
            if n.nid = x then { n with parent := parent } else n) }
  | .markDeleted x =>
      { t with nodes :=
          t.nodes.map (fun n =>
            if n.nid = x then { n with deleted := true } else n) }

/-- An operation observed by a tree wrapper during its lifetime: a local
structural mutation through the wrapper, or an imported remote update (the
edits land on the underlying tree, then the subscription delivers a
non-local event and `handleRemoteChange` runs). -/
inductive TreeOp where
  | structural (op : TreeStructOp)
  | remote (edits : List RemoteTreeEdit)
deriving DecidableEq, Repr

/-- Apply one `TreeOp` to a tree wrapper.  A failing structural delegate
throws past the wrapper, leaving its state unchanged. -/
def ObservableLoroTree.applyOp (s : ObservableLoroTreeState) (op : TreeOp) :
    ObservableLoroTreeState :=
  match op with
  | .structural sop =>
      match ObservableLoroTree.applyStructOp s sop with
      | .ok s' => s'
      | .error _ => s
  | .remote edits =>
      ObservableLoroTree.handleRemoteChange
        { s with tree := edits.foldl applyRemoteTreeEdit s.tree }

/-- Apply a whole history of operations, oldest first. -/
def ObservableLoroTree.applyOps (s : ObservableLoroTreeState)
    (ops : List TreeOp) : ObservableLoroTreeState :=
  ops.foldl ObservableLoroTree.applyOp s

/-- State of one `ObservableLoroText` wrapper: the underlying text and the
wrapper's `unsubscribe` handle. -/
structure ObservableLoroTextState where
  text : String
  sub : Option Unit
deriving DecidableEq, Repr

/-- Boundary model of `LoroText.insert(pos, s)`: out-of-range positions
throw; otherwise the string is spliced in. -/
def loroTextInsert (content : String) (pos : Nat) (s : String) :
    Except String String :=
  if pos ≤ content.length then
    .ok (content.take pos ++ s ++ content.drop pos)
  else .error "index out of bounds"

/-- `ObservableLoroText.insert`: `this.text.insert(pos, text)` then
`this.atom.reportChanged()`.  Under exception semantics the second
statement runs only when the delegate succeeded, so the result pairs the
delegate's outcome with the cell actions actually performed. -/
def ObservableLoroText.insert (st : ObservableLoroTextState) (pos : Nat)
    (s : String) : Except String ObservableLoroTextState × List CellAction :=
  match loroTextInsert st.text pos s with
  | .ok t' => (.ok { st with text := t' }, [CellAction.reportChanged])
  | .error e => (.error e, [])

/-- Looking a key up right after consing it finds it. -/
theorem lookupA_cons_self {α β : Type} [DecidableEq α] (k : α) (v : β)
    (l : List (α × β)) : lookupA k ((k, v) :: l) = some v := by
  simp [lookupA]

/-- `getMap` is idempotent on the pool state: a second call with the same id
finds the wrapper cached by the first and changes nothing. -/
theorem getMap_idem (p : PoolState) (id : ContainerID) :
    ObservableLoroPool.getMap (ObservableLoroPool.getMap p id).2 id =
      ObservableLoroPool.getMap p id := by
  unfold ObservableLoroPool.getMap
  cases h : lookupA id p.maps with
  | some w => simp [h]
  | none => simp [h, lookupA]

/-- `getTree` is idempotent on the pool state. -/
theorem getTree_idem (p : PoolState) (id : ContainerID) :
    ObservableLoroPool.getTree (ObservableLoroPool.getTree p id).2 id =
      ObservableLoroPool.getTree p id := by
  unfold ObservableLoroPool.getTree
  cases h : lookupA id p.trees with
  | some w => simp [h]
  | none => simp [h, lookupA]

/-- `getList` is idempotent on the pool state. -/
theorem getList_idem (p : PoolState) (id : ContainerID) :
    ObservableLoroPool.getList (ObservableLoroPool.getList p id).2 id =
      ObservableLoroPool.getList p id := by
  unfold ObservableLoroPool.getList
  cases h : lookupA id p.lists with
  | some w => simp [h]
  | none => simp [h, lookupA]

/-- `getMovableList` is idempotent on the pool state. -/
theorem getMovableList_idem (p : PoolState) (id : ContainerID) :
    ObservableLoroPool.getMovableList
        (ObservableLoroPool.getMovableList p id).2 id =
      ObservableLoroPool.getMovableList p id := by
  unfold ObservableLoroPool.getMovableList
  cases h : lookupA id p.movableLists with
  | some w => simp [h]
  | none => simp [h, lookupA]

/-- `getText` is idempotent on the pool state. -/
theorem getText_idem (p : PoolState) (id : ContainerID) :
    ObservableLoroPool.getText (ObservableLoroPool.getText p id).2 id =
      ObservableLoroPool.getText p id := by
  unfold ObservableLoroPool.getText
  cases h : lookupA id p.texts with
  | some w => simp [h]
  | none => simp [h, lookupA]

/-- Claim C1: resolution through the pool is idempotent — for every pool
state and every value, a second `pool.get` with a value of the same kind
and identity returns the same result (in particular the identical wrapper
reference for containers, the wrapper being created only on the first
call) and leaves the pool state exactly as the first call left it. -/
theorem pool_get_idempotent (p : PoolState) (v : LoroValue) :
    ObservableLoroPool.get (ObservableLoroPool.get p v).2 v =
      ObservableLoroPool.get p v := by
  cases v with
  | map id => simp [ObservableLoroPool.get, getMap_idem]
  | tree id => simp [ObservableLoroPool.get, getTree_idem]
  | movableList id => simp [ObservableLoroPool.get, getMovableList_idem]
  | list id => simp [ObservableLoroPool.get, getList_idem]
  | text id => simp [ObservableLoroPool.get, getText_idem]
  | counter id => rfl
  | plain n => rfl

/-- Claim C3, counterexample: resolving a container of an unknown kind (a
`LoroCounter`-style value, not one of the five dispatched kinds) does NOT
fail: `pool.get` has no throw path and returns the value unchanged —
exactly the same pass-through outcome as for a non-container value, so the
two outcomes the claim calls distinct are in fact conflated at runtime. -/
theorem pool_get_unknown_kind_no_error :
    ObservableLoroPool.get emptyPool (LoroValue.counter "cid:1@1") =
        (GetResult.passthrough (LoroValue.counter "cid:1@1"), emptyPool) ∧
      (ObservableLoroPool.get emptyPool
          (LoroValue.counter "cid:1@1")).1.isThrown = false := by
  exact ⟨rfl, rfl⟩

/-- Claim C3, amended: `pool.get` never throws at runtime; every value that
is not one of the five known container kinds — a container of an
unrecognized kind just as much as a plain non-container — is returned
unchanged with the pool untouched.  (The fail-fast for unknown container
kinds exists only at the type level, where `ToObservable` maps unknown
`Container` types to `never`.) -/
theorem pool_get_runtime_passthrough (p : PoolState) (v : LoroValue) :
    (ObservableLoroPool.get p v).1.isThrown = false ∧
      (v.isKnownContainerKind = false →
        ObservableLoroPool.get p v = (GetResult.passthrough v, p)) := by
  cases v <;>
    simp [ObservableLoroPool.get, GetResult.isThrown,
      LoroValue.isKnownContainerKind]

/-- Witness for the amended C3 theorem at a concrete unknown-kind container. -/
theorem pool_get_runtime_passthrough_witness :
    ObservableLoroPool.get emptyPool (LoroValue.counter "cid:2@2") =
      (GetResult.passthrough (LoroValue.counter "cid:2@2"), emptyPool) :=
  (pool_get_runtime_passthrough emptyPool (LoroValue.counter "cid:2@2")).2 rfl

/-- A concrete pool: one map wrapper (reference 0) was created for container
id "a" and then became observed, so its own container subscription is
active. -/
def c4pool : PoolState :=
  wrapperOnBecomeObserved
    (ObservableLoroPool.get emptyPool (LoroValue.map "a")).2 0

/-- Claim C4, counterexample: `pool.dispose()` does not invalidate wrapper
subscriptions.  In `c4pool` wrapper 0 is observed (its `unsubscribe` handle
is set); after `dispose()` the handle is still set, not null — the claim
that every wrapper's subscription is torn down by `dispose()` is false. -/
theorem pool_dispose_leaves_wrapper_subscribed :
    lookupA 0 (ObservableLoroPool.dispose c4pool).wrapperSubs =
        some (some ()) ∧
      lookupA 0 (ObservableLoroPool.dispose c4pool).wrapperSubs ≠
        some none := by
  exact ⟨rfl, by decide⟩

/-- Claim C4, amended: `pool.dispose()` unsubscribes the document-level
subscription and empties every registry (`pool.size` becomes 0), but it
leaves the `unsubscribe` handle of every wrapper ever created exactly as
it was — wrappers' own container subscriptions are torn down only by
their last-observer lifecycle hook, never by pool disposal. -/
theorem pool_dispose_effects (p : PoolState) :
    (ObservableLoroPool.dispose p).unsub = none ∧
      ObservableLoroPool.size (ObservableLoroPool.dispose p) = 0 ∧
      (ObservableLoroPool.dispose p).wrapperSubs = p.wrapperSubs := by
  cases h : p.unsub <;>
    simp [ObservableLoroPool.dispose, ObservableLoroPool.clearAll,
      ObservableLoroPool.size, h]

/-- Claim C9: `pool.dispose()` is safe to call more than once — the second
call changes nothing (the document-level subscription handle is already
null, so the unsubscribe function is not called again), the first call
nulls the document-level subscription, and `pool.size` is 0 afterward. -/
theorem pool_dispose_idempotent (p : PoolState) :
    ObservableLoroPool.dispose (ObservableLoroPool.dispose p) =
        ObservableLoroPool.dispose p ∧
      (ObservableLoroPool.dispose p).unsub = none ∧
      (ObservableLoroPool.dispose (ObservableLoroPool.dispose p)).docUnsubCalls
          = (ObservableLoroPool.dispose p).docUnsubCalls ∧
      ObservableLoroPool.size (ObservableLoroPool.dispose p) = 0 := by
  cases h : p.unsub <;>
    simp [ObservableLoroPool.dispose, ObservableLoroPool.clearAll,
      ObservableLoroPool.size, h]

/-- After `loroMapSet`, the written key reads back the written value. -/
theorem lookupA_loroMapSet_self (e : List (String × LoroValue)) (k : String)
    (v : LoroValue) : lookupA k (loroMapSet e k v) = some v := by
  induction e with
  | nil => simp [loroMapSet, lookupA]
  | cons q rest ih =>
      obtain ⟨k', v'⟩ := q
      by_cases hk : k' = k
      · subst hk
        simp [loroMapSet, lookupA]
      · simp [loroMapSet, lookupA, hk, ih]

/-- `loroMapSet` keeps the size for a present key and grows it by one for a
new key. -/
theorem loroMapSet_length (e : List (String × LoroValue)) (k : String)
    (v : LoroValue) :
    (loroMapSet e k v).length =
      if containsA k e then e.length else e.length + 1 := by
  induction e with
  | nil => simp [loroMapSet, containsA, lookupA]
  | cons q rest ih =>
      obtain ⟨k', v'⟩ := q
      by_cases hk : k' = k
      · subst hk
        simp [loroMapSet, containsA, lookupA]
      · simp only [loroMapSet, containsA, lookupA, hk, ite_false, if_neg,
          List.length_cons, ih]
        split <;> rfl

/-- Claim C5: local visibility.  After `wrapper.set(k, n)` returns — whatever
the map's prior contents and whether or not a subscription is active —
`wrapper.get(k)` in the same turn returns `n` (the scalar passes through
the pool unchanged, with the pool state untouched) and `wrapper.size`
reflects the entry (unchanged size if the key existed, one more if not).
`set` delegates to the container before `reportChanged`, so the value is
read back from the container itself. -/
theorem map_local_visibility (p : PoolState) (st : ObservableLoroMapState)
    (k : String) (n : Int) :
    ObservableLoroMap.get p (ObservableLoroMap.set st k (LoroValue.plain n)) k
        = (some (GetResult.passthrough (LoroValue.plain n)), p) ∧
      ObservableLoroMap.size (ObservableLoroMap.set st k (LoroValue.plain n))
        = (if containsA k st.entries then ObservableLoroMap.size st
           else ObservableLoroMap.size st + 1) := by
  constructor
  · simp [ObservableLoroMap.get, ObservableLoroMap.set, loroMapGet,
      lookupA_loroMapSet_self, ObservableLoroPool.get]
  · simp [ObservableLoroMap.size, ObservableLoroMap.set, loroMapSize,
      loroMapSet_length]

/-- One step of the atom state machine preserves the subscription invariant:
the wrapper's `unsubscribe` handle is set exactly while at least one
observer is attached. -/
theorem atomStep_preserves_inv (s : AtomState) (e : ObserverEvent)
    (h : s.unsubscribe.isSome = true ↔ 0 < s.observers) :
    (atomStep s e).unsubscribe.isSome = true ↔ 0 < (atomStep s e).observers := by
  obtain ⟨obs, unsub⟩ := s
  cases e with
  | attach =>
      cases unsub with
      | none =>
          cases obs with
          | zero => simp [atomStep, onBecomeObservedHook]
          | succ m => simp_all [atomStep]
      | some u =>
          cases obs with
          | zero => simp_all
          | succ m => simp [atomStep]
  | detach =>
      cases unsub with
      | none =>
          cases obs with
          | zero => simp [atomStep]
          | succ m => simp_all
      | some u =>
          cases obs with
          | zero => simp_all
          | succ m =>
              cases m with
              | zero => simp [atomStep, onBecomeUnobservedHook]
              | succ m2 => simp [atomStep]

/-- The invariant holds along any history started in a state satisfying it. -/
theorem atomRun_inv_loop (evs : List ObserverEvent) (s : AtomState)
    (h : s.unsubscribe.isSome = true ↔ 0 < s.observers) :
    (evs.foldl atomStep s).unsubscribe.isSome = true ↔
      0 < (evs.foldl atomStep s).observers := by
  induction evs generalizing s with
  | nil => exact h
  | cons e rest ih => exact ih (atomStep s e) (atomStep_preserves_inv s e h)

/-- Claim C6: for every wrapper, after any history of observer attach/detach
events starting from the initial Unobserved state (observers = 0, handle
null), the active-subscription handle is non-null exactly when at least
one live tracked computation observes the wrapper — the subscription is
established by the first-observer hook on the 0-to-1 transition and torn
down by the last-observer hook on the 1-to-0 transition. -/
theorem atom_subscription_iff_observed (evs : List ObserverEvent) :
    (atomRun evs).unsubscribe.isSome = true ↔ 0 < (atomRun evs).observers :=
  atomRun_inv_loop evs atomInit (by simp [atomInit])

/-- Claim C7: the wrapper's subscribed event callback performs a
`reportChanged` exactly for events whose origin tag is not local; for an
event tagged local it performs nothing, so a local mutation — already
notified synchronously by the write method — is never notified a second
time from the event path. -/
theorem subscribe_callback_nonlocal_only (ev : LoroEventBatch) :
    CellAction.reportChanged ∈ ObservableLoroMap.subscribeCallback ev ↔
      ev.eventBy ≠ LoroEventBy.local := by
  obtain ⟨b⟩ := ev
  cases b <;>
    simp [ObservableLoroMap.subscribeCallback, ObservableLoroMap.handleMapChange]

/-- `wrapNode` never removes or overwrites a cached entry: a node id already
mapped to a wrapper stays mapped to that wrapper. -/
theorem wrapNode_preserves_lookup (s : ObservableLoroTreeState)
    (y x : TreeID) (w : WrapperRef) (h : lookupA x s.nodeWrappers = some w) :
    lookupA x ((ObservableLoroTree.wrapNode s y).2).nodeWrappers = some w := by
  unfold ObservableLoroTree.wrapNode
  cases hy : lookupA y s.nodeWrappers with
  | some w' => simpa [hy] using h
  | none =>
      have hne : y ≠ x := by
        intro he
        subst he
        rw [h] at hy
        cases hy
      simp [hy, lookupA, hne, h]

/-- `wrapNode` does not touch the invalidation log. -/
theorem wrapNode_invalidated (s : ObservableLoroTreeState) (y : TreeID) :
    ((ObservableLoroTree.wrapNode s y).2).invalidated = s.invalidated := by
  unfold ObservableLoroTree.wrapNode
  cases hy : lookupA y s.nodeWrappers <;> simp [hy]

/-- `wrapNode` does not touch the underlying tree. -/
theorem wrapNode_tree (s : ObservableLoroTreeState) (y : TreeID) :
    ((ObservableLoroTree.wrapNode s y).2).tree = s.tree := by
  unfold ObservableLoroTree.wrapNode
  cases hy : lookupA y s.nodeWrappers <;> simp [hy]

/-- Node existence is invariant under a map that keeps every node's id. -/
theorem nodeExistsL_map (l : List LoroTreeNodeModel)
    (f : LoroTreeNodeModel → LoroTreeNodeModel) (x : TreeID)
    (hf : ∀ n, (f n).nid = n.nid) :
    nodeExistsL (l.map f) x = nodeExistsL l x := by
  induction l with
  | nil => rfl
  | cons n rest ih => simp [nodeExistsL, hf, List.any_cons] at ih ⊢; rw [ih]

/-- A successful `createNode` keeps every existing node. -/
theorem loroTreeCreateNode_preserves (t : LoroTreeModel)
    (parent : Option TreeID) (nid : TreeID) (t' : LoroTreeModel) (x : TreeID)
    (h : loroTreeCreateNode t parent = .ok (nid, t'))
    (hx : nodeExists t x = true) : nodeExists t' x = true := by
  cases parent with
  | none =>
      simp only [loroTreeCreateNode, Except.ok.injEq, Prod.mk.injEq] at h
      obtain ⟨-, h2⟩ := h
      subst h2
      simp only [nodeExists, nodeExistsL, List.any_cons, Bool.or_eq_true]
        at hx ⊢
      exact Or.inr hx
  | some p =>
      simp only [loroTreeCreateNode] at h
      split at h
      · simp only [Except.ok.injEq, Prod.mk.injEq] at h
        obtain ⟨-, h2⟩ := h
        subst h2
        simp only [nodeExists, nodeExistsL, List.any_cons, Bool.or_eq_true]
          at hx ⊢
        exact Or.inr hx
      · cases h

/-- A successful `move` keeps every existing node. -/
theorem loroTreeMove_preserves (t : LoroTreeModel) (target : TreeID)
    (parent : Option TreeID) (t' : LoroTreeModel) (x : TreeID)
    (h : loroTreeMove t target parent = .ok t')
    (hx : nodeExists t x = true) : nodeExists t' x = true := by
  unfold loroTreeMove at h
  split at h
  · simp only [Except.ok.injEq] at h
    subst h
    simp only [nodeExists] at hx ⊢
    rw [nodeExistsL_map]
    · exact hx
    · intro n
      by_cases hn : n.nid = target <;> simp [hn]
  · cases h

/-- A successful `moveBefore` / `moveAfter` keeps every existing node. -/
theorem loroTreeMoveBeside_preserves (t : LoroTreeModel) (target other : TreeID)
    (t' : LoroTreeModel) (x : TreeID)
    (h : loroTreeMoveBeside t target other = .ok t')
    (hx : nodeExists t x = true) : nodeExists t' x = true := by
  unfold loroTreeMoveBeside at h
  split at h
  · exact loroTreeMove_preserves t target _ t' x h hx
  · cases h

/-- A successful `delete` keeps every node (it only marks flags). -/
theorem loroTreeDelete_preserves (t : LoroTreeModel) (target : TreeID)
    (t' : LoroTreeModel) (x : TreeID)
    (h : loroTreeDelete t target = .ok t')
    (hx : nodeExists t x = true) : nodeExists t' x = true := by
  unfold loroTreeDelete at h
  split at h
  · simp only [Except.ok.injEq] at h
    subst h
    simp only [nodeExists] at hx ⊢
    rw [nodeExistsL_map]
    · exact hx
    · intro n
      by_cases hn : isAncestorOrSelf t target n.nid <;> simp [hn]
  · cases h

/-- One remote edit keeps every existing node. -/
theorem applyRemoteTreeEdit_preserves (t : LoroTreeModel) (e : RemoteTreeEdit)
    (x : TreeID) (hx : nodeExists t x = true) :
    nodeExists (applyRemoteTreeEdit t e) x = true := by
  cases e with
  | addNode y parent =>
      simp only [applyRemoteTreeEdit]
      split
      · exact hx
      · simp only [nodeExists, nodeExistsL, List.any_cons, Bool.or_eq_true]
          at hx ⊢
        exact Or.inr hx
  | reparent y parent =>
      simp only [applyRemoteTreeEdit, nodeExists] at hx ⊢
      rw [nodeExistsL_map]
      · exact hx
      · intro n
        by_cases hn : n.nid = y <;> simp [hn]
  | markDeleted y =>
      simp only [applyRemoteTreeEdit, nodeExists] at hx ⊢
      rw [nodeExistsL_map]
      · exact hx
      · intro n
        by_cases hn : n.nid = y <;> simp [hn]

/-- A whole imported batch of remote edits keeps every existing node. -/
theorem remoteEdits_preserve (edits : List RemoteTreeEdit) (t : LoroTreeModel)
    (x : TreeID) (hx : nodeExists t x = true) :
    nodeExists (edits.foldl applyRemoteTreeEdit t) x = true := by
  induction edits generalizing t with
  | nil => exact hx
  | cons e rest ih => exact ih _ (applyRemoteTreeEdit_preserves t e x hx)

/-- A successful structural mutation through the wrapper never removes or
overwrites a cached node wrapper. -/
theorem applyStructOp_preserves_lookup (s : ObservableLoroTreeState)
    (op : TreeStructOp) (s' : ObservableLoroTreeState) (x : TreeID)
    (w : WrapperRef) (hok : ObservableLoroTree.applyStructOp s op = .ok s')
    (h : lookupA x s.nodeWrappers = some w) :
    lookupA x s'.nodeWrappers = some w := by
  cases op with
  | createNode parent idx =>
      simp only [ObservableLoroTree.applyStructOp] at hok
      split at hok
      · simp only [Except.ok.injEq] at hok
        subst hok
        exact wrapNode_preserves_lookup _ _ _ _
          (by simpa [ObservableLoroTree.handleChange] using h)
      · cases hok
  | move target parent idx =>
      simp only [ObservableLoroTree.applyStructOp] at hok
      split at hok
      · simp only [Except.ok.injEq] at hok
        subst hok
        simpa [ObservableLoroTree.handleChange] using h
      · cases hok
  | moveBefore target beforeNode =>
      simp only [ObservableLoroTree.applyStructOp] at hok
      split at hok
      · simp only [Except.ok.injEq] at hok
        subst hok
        simpa [ObservableLoroTree.handleChange] using h
      · cases hok
  | moveAfter target afterNode =>
      simp only [ObservableLoroTree.applyStructOp] at hok
      split at hok
      · simp only [Except.ok.injEq] at hok
        subst hok
        simpa [ObservableLoroTree.handleChange] using h
      · cases hok
  | delete target =>
      simp only [ObservableLoroTree.applyStructOp] at hok
      split at hok
      · simp only [Except.ok.injEq] at hok
        subst hok
        simpa [ObservableLoroTree.handleChange] using h
      · cases hok

/-- A successful structural mutation keeps every node that existed in the
underlying tree (delete only marks flags). -/
theorem applyStructOp_preserves_nodeExists (s : ObservableLoroTreeState)
    (op : TreeStructOp) (s' : ObservableLoroTreeState) (x : TreeID)
    (hok : ObservableLoroTree.applyStructOp s op = .ok s')
    (hx : nodeExists s.tree x = true) : nodeExists s'.tree x = true := by
  cases op with
  | createNode parent idx =>
      simp only [ObservableLoroTree.applyStructOp] at hok
      split at hok
      · next nid t' heq =>
          simp only [Except.ok.injEq] at hok
          subst hok
          rw [wrapNode_tree]
          simpa [ObservableLoroTree.handleChange]
            using loroTreeCreateNode_preserves s.tree parent nid t' x heq hx
      · cases hok
  | move target parent idx =>
      simp only [ObservableLoroTree.applyStructOp] at hok
      split at hok
      · next t' heq =>
          simp only [Except.ok.injEq] at hok
          subst hok
          simpa [ObservableLoroTree.handleChange]
            using loroTreeMove_preserves s.tree target parent t' x heq hx
      · cases hok
  | moveBefore target beforeNode =>
      simp only [ObservableLoroTree.applyStructOp] at hok
      split at hok
      · next t' heq =>
          simp only [Except.ok.injEq] at hok
          subst hok
          simpa [ObservableLoroTree.handleChange]
            using loroTreeMoveBeside_preserves s.tree target beforeNode t' x
              heq hx
      · cases hok
  | moveAfter target afterNode =>
      simp only [ObservableLoroTree.applyStructOp] at hok
      split at hok
      · next t' heq =>
          simp only [Except.ok.injEq] at hok
          subst hok
          simpa [ObservableLoroTree.handleChange]
            using loroTreeMoveBeside_preserves s.tree target afterNode t' x
              heq hx
      · cases hok
  | delete target =>
      simp only [ObservableLoroTree.applyStructOp] at hok
      split at hok
      · next t' heq =>
          simp only [Except.ok.injEq] at hok
          subst hok
          simpa [ObservableLoroTree.handleChange]
            using loroTreeDelete_preserves s.tree target t' x heq hx
      · cases hok

/-- Claim C8: every successful structural mutation on the tree wrapper or one
of its node wrappers (`createNode`, `move`, `moveBefore`, `moveAfter`,
`delete`) synchronously appends to the invalidation log exactly the
tree-level cell followed by the cell of every node wrapper cached at the
moment `handleChange` runs — all cached node wrappers, not only the nodes
structurally touched by the edit. -/
theorem tree_struct_invalidates_all (s : ObservableLoroTreeState)
    (op : TreeStructOp) (s' : ObservableLoroTreeState)
    (h : ObservableLoroTree.applyStructOp s op = .ok s') :
    s'.invalidated = s.invalidated ++ handleChangeCells s.nodeWrappers := by
  cases op with
  | createNode parent idx =>
      simp only [ObservableLoroTree.applyStructOp] at h
      split at h
      · simp only [Except.ok.injEq] at h
        subst h
        rw [wrapNode_invalidated]
        simp [ObservableLoroTree.handleChange]
      · cases h
  | move target parent idx =>
      simp only [ObservableLoroTree.applyStructOp] at h
      split at h
      · simp only [Except.ok.injEq] at h
        subst h
        simp [ObservableLoroTree.handleChange]
      · cases h
  | moveBefore target beforeNode =>
      simp only [ObservableLoroTree.applyStructOp] at h
      split at h
      · simp only [Except.ok.injEq] at h
        subst h
        simp [ObservableLoroTree.handleChange]
      · cases h
  | moveAfter target afterNode =>
      simp only [ObservableLoroTree.applyStructOp] at h
      split at h
      · simp only [Except.ok.injEq] at h
        subst h
        simp [ObservableLoroTree.handleChange]
      · cases h
  | delete target =>
      simp only [ObservableLoroTree.applyStructOp] at h
      split at h
      · simp only [Except.ok.injEq] at h
        subst h
        simp [ObservableLoroTree.handleChange]
      · cases h

/-- The wrapper state produced by creating the first node on a fresh tree
wrapper: node 0 exists, its wrapper (reference 0) is cached, and the
tree-level cell was invalidated (no node wrapper was cached yet when
`handleChange` ran). -/
def c8result : ObservableLoroTreeState :=
  { tree := { nodes := [⟨0, none, false⟩], nextId := 1 },
    nodeWrappers := [(0, 0)], nextNodeWrapper := 1,
    invalidated := [TreeCell.treeAtom] }

/-- Witness for C8: creating a root node on a fresh tree wrapper succeeds and
appends exactly the `handleChange` cells of the prior cache. -/
theorem tree_struct_invalidates_all_witness :
    ObservableLoroTree.applyStructOp emptyTreeState
        (TreeStructOp.createNode none none) = Except.ok c8result ∧
      c8result.invalidated =
        emptyTreeState.invalidated ++ handleChangeCells
          emptyTreeState.nodeWrappers :=
  ⟨rfl, tree_struct_invalidates_all emptyTreeState
    (TreeStructOp.createNode none none) c8result rfl⟩

/-- One operation of any kind — a structural mutation (successful or
throwing) or an imported remote update — preserves every cached node
wrapper binding. -/
theorem applyOp_preserves_lookup (s : ObservableLoroTreeState) (op : TreeOp)
    (x : TreeID) (w : WrapperRef) (h : lookupA x s.nodeWrappers = some w) :
    lookupA x (ObservableLoroTree.applyOp s op).nodeWrappers = some w := by
  cases op with
  | structural sop =>
      cases hres : ObservableLoroTree.applyStructOp s sop with
      | ok s' =>
          simp only [ObservableLoroTree.applyOp, hres]
          exact applyStructOp_preserves_lookup s sop s' x w hres h
      | error e => simpa [ObservableLoroTree.applyOp, hres] using h
  | remote edits =>
      simpa [ObservableLoroTree.applyOp, ObservableLoroTree.handleRemoteChange]
        using h

/-- One operation of any kind preserves node existence in the underlying
tree: structural mutations and remote edits never erase nodes. -/
theorem applyOp_preserves_nodeExists (s : ObservableLoroTreeState)
    (op : TreeOp) (x : TreeID) (hx : nodeExists s.tree x = true) :
    nodeExists (ObservableLoroTree.applyOp s op).tree x = true := by
  cases op with
  | structural sop =>
      cases hres : ObservableLoroTree.applyStructOp s sop with
      | ok s' =>
          simp only [ObservableLoroTree.applyOp, hres]
          exact applyStructOp_preserves_nodeExists s sop s' x hres hx
      | error e => simpa [ObservableLoroTree.applyOp, hres] using hx
  | remote edits =>
      simpa [ObservableLoroTree.applyOp, ObservableLoroTree.handleRemoteChange]
        using remoteEdits_preserve edits s.tree x hx

/-- A whole history of operations preserves every cached node wrapper
binding. -/
theorem applyOps_preserves_lookup (ops : List TreeOp)
    (s : ObservableLoroTreeState) (x : TreeID) (w : WrapperRef)
    (h : lookupA x s.nodeWrappers = some w) :
    lookupA x (ObservableLoroTree.applyOps s ops).nodeWrappers = some w := by
  induction ops generalizing s with
  | nil => exact h
  | cons op rest ih => exact ih _ (applyOp_preserves_lookup s op x w h)

/-- A whole history of operations preserves node existence. -/
theorem applyOps_preserves_nodeExists (ops : List TreeOp)
    (s : ObservableLoroTreeState) (x : TreeID)
    (hx : nodeExists s.tree x = true) :
    nodeExists (ObservableLoroTree.applyOps s ops).tree x = true := by
  induction ops generalizing s with
  | nil => exact hx
  | cons op rest ih => exact ih _ (applyOp_preserves_nodeExists s op x hx)

/-- Claim C2: tree-node wrapper identity is stable.  If node id `x` is cached
with wrapper `w` before any history of operations — local `createNode`,
`move`, `moveBefore`, `moveAfter`, `delete` (successful or throwing) and
remote edits, brought in by an import, that add, reparent or delete nodes
— then after the
whole history (i) the cache still maps `x` to the same wrapper `w`,
(ii) resolving `x` again (by id lookup or traversal, both of which go
through `wrapNode`) returns the identical wrapper `w`, and (iii) a node
that existed in the underlying tree still exists there (deleted nodes are
only flagged, so they stay queryable and stay in the cache). -/
theorem tree_node_wrapper_stable (s : ObservableLoroTreeState)
    (ops : List TreeOp) (x : TreeID) (w : WrapperRef)
    (h : lookupA x s.nodeWrappers = some w) :
    lookupA x (ObservableLoroTree.applyOps s ops).nodeWrappers = some w ∧
      (ObservableLoroTree.wrapNode (ObservableLoroTree.applyOps s ops) x).1
        = w ∧
      (nodeExists s.tree x = true →
        nodeExists (ObservableLoroTree.applyOps s ops).tree x = true) := by
  have hl := applyOps_preserves_lookup ops s x w h
  refine ⟨hl, ?_, fun hx => applyOps_preserves_nodeExists ops s x hx⟩
  unfold ObservableLoroTree.wrapNode
  simp [hl]

/-- A tree wrapper holding one root node (id 0, not deleted) whose node
wrapper (reference 0) is cached. -/
def c2cached : ObservableLoroTreeState :=
  { tree := { nodes := [⟨0, none, false⟩], nextId := 1 },
    nodeWrappers := [(0, 0)], nextNodeWrapper := 1, invalidated := [] }

/-- Witness for C2 at a concrete run: delete node 0 locally, then import a
remote edit that reparents it under a freshly added node; its cached
wrapper binding, its re-resolution, and its queryability all survive. -/
theorem tree_node_wrapper_stable_witness :
    lookupA 0 c2cached.nodeWrappers = some 0 ∧
      (lookupA 0 (ObservableLoroTree.applyOps c2cached
          [TreeOp.structural (TreeStructOp.delete 0),
           TreeOp.remote [RemoteTreeEdit.addNode 7 none,
             RemoteTreeEdit.reparent 0 (some 7)]]).nodeWrappers = some 0 ∧
        (ObservableLoroTree.wrapNode (ObservableLoroTree.applyOps c2cached
            [TreeOp.structural (TreeStructOp.delete 0),
             TreeOp.remote [RemoteTreeEdit.addNode 7 none,
               RemoteTreeEdit.reparent 0 (some 7)]]) 0).1 = 0 ∧
        (nodeExists c2cached.tree 0 = true →
          nodeExists (ObservableLoroTree.applyOps c2cached
              [TreeOp.structural (TreeStructOp.delete 0),
               TreeOp.remote [RemoteTreeEdit.addNode 7 none,
                 RemoteTreeEdit.reparent 0 (some 7)]]).tree 0 = true)) :=
  ⟨rfl, tree_node_wrapper_stable c2cached
    [TreeOp.structural (TreeStructOp.delete 0),
     TreeOp.remote [RemoteTreeEdit.addNode 7 none,
       RemoteTreeEdit.reparent 0 (some 7)]] 0 0 rfl⟩

/-- Claim C10: write-path error atomicity.  A wrapper write method delegates
to the underlying container before calling `reportChanged`, so when the
delegated operation throws (here `LoroText.insert` on an out-of-range
position), the wrapper propagates exactly that error and performs no cell
action at all — no change notification is emitted for a failed write. -/
theorem write_failure_no_notification (st : ObservableLoroTextState)
    (pos : Nat) (s : String) (e : String)
    (h : loroTextInsert st.text pos s = .error e) :
    ObservableLoroText.insert st pos s = (.error e, []) := by
  unfold ObservableLoroText.insert
  simp [h]

/-- Witness for C10: inserting at position 5 of the two-character text "ab"
throws in the container and the wrapper emits no notification. -/
theorem write_failure_no_notification_witness :
    loroTextInsert "ab" 5 "x" = Except.error "index out of bounds" ∧
      ObservableLoroText.insert ⟨"ab", none⟩ 5 "x" =
        (Except.error "index out of bounds", []) :=
  ⟨by rfl, write_failure_no_notification ⟨"ab", none⟩ 5 "x"
    "index out of bounds" (by rfl)⟩
